import Mathlib

/-!
# Verification of the state-replication layer of the `fps` repository

Shallow embedding of the networking/replication code:

* `src/bin/client.rs` — `client_sync_players` (reliable event handling and
  unreliable snapshot application on the client),
* `src/bin/server.rs` — `server_update_system` (connection lifecycle and
  command/input ingestion) and `server_network_sync` (snapshot broadcast),
* `src/player/mod.rs` — `player_input` (per-frame movement input send),
* `src/bot/mod.rs` — `spawn_fireball`.

Scalars (Rust `f32`) are modelled as rationals `ℚ`; the claims under
consideration concern data flow, map bookkeeping and exact arithmetic
structure, not floating-point rounding.  The `f32` operations
`normalize_or_zero` and `is_normalized`, whose exact values involve square
roots, are taken as function parameters of the server command handler so
that every definition stays executable.

The `network` module of the repository (declared as `pub mod network` in
`src/lib.rs`) only provides data declarations; their shapes are
reconstructed from every use site in the files above and from the message
table of the specification: `NetworkMapping` is a newtype around
`HashMap<Entity, Entity>`, `ClientLobby`/`ServerLobby` wrap
`HashMap<ClientId, _>` in their `players` field, and `NetworkedEntities`
holds three parallel `Vec`s.  `HashMap`s are modelled as association lists
with unique-key (last-write-wins) semantics.
-/

namespace FPS

/-- Server-side `bevy` `Entity` handle (an opaque id). -/
abbrev ServerEntity := Nat

/-- Client-side `bevy` `Entity` handle (an opaque id, a distinct space from
`ServerEntity`). -/
abbrev ClientEntity := Nat

/-- `renet` `ClientId` (`u64`); no arithmetic is performed on it by the
embedded code, so it is modelled as `Nat`. -/
abbrev ClientId := Nat

/-- `bevy` `Vec3` with `f32` fields, modelled over `ℚ`. -/
structure V3 where
  x : ℚ
  y : ℚ
  z : ℚ
deriving DecidableEq, Repr

instance : Add V3 := ⟨fun a b => ⟨a.x + b.x, a.y + b.y, a.z + b.z⟩⟩

instance : Sub V3 := ⟨fun a b => ⟨a.x - b.x, a.y - b.y, a.z - b.z⟩⟩

instance : SMul ℚ V3 := ⟨fun c v => ⟨c * v.x, c * v.y, c * v.z⟩⟩

/-- `Vec3::ZERO`. -/
def V3.zero : V3 := ⟨0, 0, 0⟩

/-- `Vec3::ONE`, the default `Transform` scale. -/
def V3.one : V3 := ⟨1, 1, 1⟩

/-- `Vec3::X`. -/
def V3.unitX : V3 := ⟨1, 0, 0⟩

/-- `bevy` `Quat` (`f32` quaternion), modelled as four rationals. -/
structure Quat where
  x : ℚ
  y : ℚ
  z : ℚ
  w : ℚ
deriving DecidableEq, Repr

/-- `Quat::IDENTITY`. -/
def Quat.identity : Quat := ⟨0, 0, 0, 1⟩

/-- `bevy` `Transform` (the fields actually read/written by the embedded
code: translation, rotation, scale). -/
structure Transform where
  translation : V3
  rotation : Quat
  scale : V3
deriving DecidableEq, Repr

/-- `Transform::default()`: zero translation, identity rotation, unit
scale. -/
def Transform.default : Transform :=
  { translation := V3.zero, rotation := Quat.identity, scale := V3.one }

/-- `Transform::from_xyz(x, y, z)`. -/
def Transform.fromXyz (x y z : ℚ) : Transform :=
  { Transform.default with translation := ⟨x, y, z⟩ }

/-- `Transform::from_translation(t)`. -/
def Transform.fromTranslation (t : V3) : Transform :=
  { Transform.default with translation := t }

/-!
## `HashMap` model

`std::collections::HashMap` is modelled as an association list whose
operations observe it as a finite map: `mlookup` finds the first binding,
`minsert` overwrites in place (or appends), `mremove` removes every
binding of the key (on the lists reachable through `minsert` keys are
unique, so this coincides with removing the one binding — and it makes
the map semantics independent of the list representative).
-/

/-- `HashMap::get`. -/
def mlookup {α : Type} : List (Nat × α) → Nat → Option α
  | [], _ => none
  | (k2, v) :: rest, k => if k2 = k then some v else mlookup rest k

/-- `HashMap::insert` (last write wins; the returned previous value is
discarded by every call site in the sources). -/
def minsert {α : Type} : List (Nat × α) → Nat → α → List (Nat × α)
  | [], k, v => [(k, v)]
  | (k2, v2) :: rest, k, v =>
      if k2 = k then (k, v) :: rest else (k2, v2) :: minsert rest k v

/-- The list part of `HashMap::remove`. -/
def mremove {α : Type} : List (Nat × α) → Nat → List (Nat × α)
  | [], _ => []
  | (k2, v) :: rest, k =>
      if k2 = k then mremove rest k else (k2, v) :: mremove rest k

/-- Key set (as a list) of a map; used to state that an operation creates
or destroys no entity. -/
def mkeys {α : Type} (m : List (Nat × α)) : List Nat :=
  m.map Prod.fst

/-!
## Wire messages and channels

Reconstructed from every construction/destructuring site in
`src/bin/client.rs`, `src/bin/server.rs`, `src/bot/mod.rs`,
`src/player/mod.rs` and the message table of the specification (§6).
-/

/-- `network::ServerMessages`, the reliable-ordered event messages. -/
inductive ServerMessages where
  | PlayerCreate (id : ClientId) (entity : ServerEntity) (translation : V3)
  | PlayerRemove (id : ClientId)
  | SpawnProjectile (entity : ServerEntity) (translation : V3)
  | DespawnProjectile (entity : ServerEntity)
  | EquipItem (player_id : ClientId) (item_entity : ServerEntity)
      (item_name : String) (item_model : String)
  | UnequipItem (player_id : ClientId)
deriving DecidableEq, Repr

/-- `network::NetworkedEntities`: the unreliable snapshot batch, three
parallel arrays (`entities`, `translations`, `rotations`). -/
structure NetworkedEntities where
  entities : List ServerEntity
  translations : List V3
  rotations : List Quat
deriving DecidableEq, Repr

/-- `NetworkedEntities::default()`. -/
def NetworkedEntities.empty : NetworkedEntities :=
  { entities := [], translations := [], rotations := [] }

/-- `player::PlayerInput`: the movement input resource/message payload. -/
structure PlayerInput where
  up : Bool
  down : Bool
  left : Bool
  right : Bool
  interact : Bool
deriving DecidableEq, Repr

/-- `network::ClientInput`: messages on the client input channel. -/
inductive ClientInput where
  | Movement (input : PlayerInput)
  | Rotation (rotation : Quat)
  | Position (position : V3)
  | Interact
deriving DecidableEq, Repr

/-- `player::PlayerCommand`: messages on the client command channel. -/
inductive PlayerCommand where
  | BasicAttack (cast_at : V3)
deriving DecidableEq, Repr

/-- `network::ServerChannel`: the two server → client channels
(reliable-ordered events and unreliable snapshots). -/
inductive ServerChannel where
  | ServerMessages
  | NetworkedEntities
deriving DecidableEq, Repr

/-- `network::PlayerInfo`: a client lobby entry. -/
structure PlayerInfo where
  server_entity : ServerEntity
  client_entity : ClientEntity
deriving DecidableEq, Repr

/-!
## Client reconciliation engine (`client_sync_players`, `src/bin/client.rs`)

The client state carries exactly what the system reads and writes:

* `clientId` — the `CurrentClientId` resource;
* `lobby` — `ClientLobby::players : HashMap<ClientId, PlayerInfo>`;
* `mapping` — `NetworkMapping(HashMap<Entity, Entity>)`, server → client;
* `world` — the live local entities with their `Transform` component
  (every entity handled by this system owns a `Transform`; membership
  models `Commands::get_entity` succeeding);
* `nextEntity` — the `bevy` entity allocator (`Commands::spawn` returns
  the next fresh id).

Visual-only side effects (meshes, materials, cameras, visibility,
children added by `EquipItem`) are outside the replicated state and are
not modelled.
-/

/-- The client-side replication state. -/
structure ClientState where
  clientId : ClientId
  lobby : List (ClientId × PlayerInfo)
  mapping : List (ServerEntity × ClientEntity)
  world : List (ClientEntity × Transform)
  nextEntity : ClientEntity
deriving DecidableEq, Repr

/-- The mapping-removal step shared by the `PlayerRemove` and
`DespawnProjectile` handlers: `network_mapping.0.remove(&server_id)`
(`src/bin/client.rs:322,337`).  Returns the prior binding (if any) and
the map without the key. -/
def unregister (m : List (ServerEntity × ClientEntity)) (k : ServerEntity) :
    Option ClientEntity × List (ServerEntity × ClientEntity) :=
  (mlookup m k, mremove m k)

/-- Reliable-ordered event application: the `ServerChannel::ServerMessages`
arm of `client_sync_players` (`src/bin/client.rs:198-388`). -/
def clientHandleMessage (s : ClientState) (msg : ServerMessages) : ClientState :=
  match msg with
  | .PlayerCreate id entity translation =>
      if s.clientId = id then
        -- our own player: spawn the controlled avatar at (0, 2, 0)
        let player_entity := s.nextEntity
        { s with
          world := minsert s.world player_entity (Transform.fromXyz 0 2 0)
          nextEntity := s.nextEntity + 1
          lobby := minsert s.lobby id ⟨entity, player_entity⟩
          mapping := minsert s.mapping entity player_entity }
      else
        -- remote player: spawn the passive sensor body at the sent position
        let client_entity := s.nextEntity
        { s with
          world := minsert s.world client_entity (Transform.fromTranslation translation)
          nextEntity := s.nextEntity + 1
          lobby := minsert s.lobby id ⟨entity, client_entity⟩
          mapping := minsert s.mapping entity client_entity }
  | .PlayerRemove id =>
      match mlookup s.lobby id with
      | some info =>
          { s with
            lobby := mremove s.lobby id
            world := mremove s.world info.client_entity
            mapping := (unregister s.mapping info.server_entity).2 }
      | none => s
  | .SpawnProjectile entity translation =>
      let projectile_entity := s.nextEntity
      { s with
        world := minsert s.world projectile_entity (Transform.fromTranslation translation)
        nextEntity := s.nextEntity + 1
        mapping := minsert s.mapping entity projectile_entity }
  | .DespawnProjectile entity =>
      match unregister s.mapping entity with
      | (some client_entity, mapping2) =>
          { s with
            mapping := mapping2
            world := mremove s.world client_entity }
      | (none, _) => s
  | .EquipItem _ _ _ _ => s
  | .UnequipItem _ => s

/-- Transform overwrite performed for one snapshot entry once the skip
check has passed: `commands.get_entity(*entity)` followed by
`cmd_entity.insert(Transform { translation, rotation, ..Default::default() })`
(`src/bin/client.rs:402-411`).  A dead entity is left alone; a live one
gets the snapshot translation/rotation and the default scale. -/
def snapshotWrite (world : List (ClientEntity × Transform)) (e : ClientEntity)
    (t : V3) (r : Quat) : List (ClientEntity × Transform) :=
  if (mlookup world e).isSome then
    minsert world e { translation := t, rotation := r, scale := V3.one }
  else world

/-- Application of a single snapshot triple (server id, translation,
rotation): the body of the `for i in 0..entities.len()` loop of
`client_sync_players` (`src/bin/client.rs:393-413`). -/
def applySnapshotEntry (cid : ClientId) (lobby : List (ClientId × PlayerInfo))
    (mapping : List (ServerEntity × ClientEntity))
    (world : List (ClientEntity × Transform))
    (entry : ServerEntity × V3 × Quat) : List (ClientEntity × Transform) :=
  match mlookup mapping entry.1 with
  | none => world
  | some e =>
      match mlookup lobby cid with
      | some player_info =>
          if player_info.client_entity = e then world
          else snapshotWrite world e entry.2.1 entry.2.2
      | none => snapshotWrite world e entry.2.1 entry.2.2

/-- The triples of a snapshot batch, pairing the parallel arrays (the
server always produces arrays of equal length, see
`server_network_sync`). -/
def NetworkedEntities.entries (ne : NetworkedEntities) :
    List (ServerEntity × V3 × Quat) :=
  ne.entities.zip (ne.translations.zip ne.rotations)

/-- Snapshot application: the `ServerChannel::NetworkedEntities` arm of
`client_sync_players` (`src/bin/client.rs:390-414`).  Only the local
world is touched; lobby and mapping are read-only here. -/
def applyNetworkedEntities (s : ClientState) (ne : NetworkedEntities) : ClientState :=
  { s with
    world := ne.entries.foldl (applySnapshotEntry s.clientId s.lobby s.mapping) s.world }

/-!
## Client movement input (`player_input`, `src/player/mod.rs:277-295`)
-/

/-- The keyboard keys read by `player_input` (A/D/W/S/E pressed state). -/
structure Keyboard where
  keyA : Bool
  keyD : Bool
  keyW : Bool
  keyS : Bool
  keyE : Bool
deriving DecidableEq, Repr

/-- The `PlayerInput` resource value written by `player_input`:
`left = A, right = D, up = W, down = S, interact = E`. -/
def inputOfKeyboard (k : Keyboard) : PlayerInput :=
  { up := k.keyW, down := k.keyS, left := k.keyA, right := k.keyD,
    interact := k.keyE }

/-- One invocation of the `player_input` system
(`src/player/mod.rs:277-295`): update the `PlayerInput` resource from the
keyboard, and — whenever the client is connected — send one
`ClientInput::Movement` message on `ClientChannel::Input`.  Note that,
unlike `move_player` and `move_player_body`, this system reads no clock
and keeps no `last_sent` state. -/
def player_input (keyboard : Keyboard) (connected : Bool) :
    PlayerInput × List ClientInput :=
  let input := inputOfKeyboard keyboard
  (input, if connected then [ClientInput.Movement input] else [])

/-- One engine frame as seen by `player_input`: the frame time (seconds),
the keyboard state and whether `client.is_connected()`. -/
structure Frame where
  time : ℚ
  keyboard : Keyboard
  connected : Bool
deriving DecidableEq, Repr

/-- The timestamped movement messages sent over a run of frames. -/
def movementSends : List Frame → List (ℚ × ClientInput)
  | [] => []
  | f :: rest =>
      ((player_input f.keyboard f.connected).2.map (fun m => (f.time, m)))
        ++ movementSends rest

/-!
## Server replication engine (`src/bin/server.rs`)

`server_update_system` and `server_network_sync` are embedded as pure
functions from their inputs (queries, lobby, transport events/messages)
to an ordered trace of effects (sends, broadcasts, world commands).
The `players` query `Query<(Entity, &Player, &Transform)>` is passed as a
map from entity to `(Player, Transform)` data.
-/

/-- Data of one row of the server `players` query: the `Player.id` and
the `Transform`. -/
structure SPlayer where
  id : ClientId
  transform : Transform
deriving DecidableEq, Repr

/-- One observable effect of a server system, in emission order. -/
inductive ServerEffect where
  /-- `server.send_message(cid, channel, msg)`. -/
  | sendTo (cid : ClientId) (channel : ServerChannel) (msg : ServerMessages)
  /-- `server.broadcast_message(channel, msg)` (reaches every connection,
  the newest included). -/
  | broadcast (channel : ServerChannel) (msg : ServerMessages)
  /-- `server.broadcast_message(ServerChannel::NetworkedEntities, batch)`. -/
  | broadcastSnap (channel : ServerChannel) (batch : NetworkedEntities)
  /-- `commands.spawn(PlayerBundle::new(id, transform, ..))`. -/
  | spawnPlayer (entity : ServerEntity) (id : ClientId) (transform : Transform)
  /-- `spawn_fireball(..)`: a projectile entity with
  `Transform::from_translation(translation)` and `Velocity(velocity)`. -/
  | spawnProjectile (entity : ServerEntity) (translation : V3) (velocity : V3)
  /-- `commands.entity(e).despawn()`. -/
  | despawn (entity : ServerEntity)
  /-- `commands.entity(e).insert(input)` (movement input component). -/
  | setInput (entity : ServerEntity) (input : PlayerInput)
  /-- `commands.entity(e).insert(transform)` (rotation/position report). -/
  | setTransform (entity : ServerEntity) (transform : Transform)
deriving DecidableEq, Repr

/-- `renet` `ServerEvent`. -/
inductive ServerEvent where
  | ClientConnected (client_id : ClientId)
  | ClientDisconnected (client_id : ClientId) (reason : String)
deriving DecidableEq, Repr

/-- The transform a joining player is spawned with:
`Transform::from_xyz(0.0, 2.0, 0.0)` (`src/bin/server.rs:203`). -/
def joinTransform : Transform := Transform.fromXyz 0 2 0

/-- The connection-lifecycle arm of `server_update_system`
(`src/bin/server.rs:173-248`): handle one `ServerEvent`, returning the
new lobby, the new entity allocator and the ordered effect trace. -/
def handleServerEvent (lobby : List (ClientId × ServerEntity))
    (players : List (ServerEntity × SPlayer)) (nextE : ServerEntity)
    (ev : ServerEvent) :
    List (ClientId × ServerEntity) × ServerEntity × List ServerEffect :=
  match ev with
  | .ClientConnected client_id =>
      -- catch-up: one PlayerCreate per existing player, to the new client only
      let catchUp := players.map (fun p =>
        ServerEffect.sendTo client_id ServerChannel.ServerMessages
          (ServerMessages.PlayerCreate p.2.id p.1 p.2.transform.translation))
      -- then spawn the joining player and broadcast its creation to everyone
      let player_entity := nextE
      (minsert lobby client_id player_entity, nextE + 1,
        catchUp
          ++ ServerEffect.spawnPlayer player_entity client_id joinTransform
          :: [ServerEffect.broadcast ServerChannel.ServerMessages
                (ServerMessages.PlayerCreate client_id player_entity
                  joinTransform.translation)])
  | .ClientDisconnected client_id _reason =>
      let despawns := match mlookup lobby client_id with
        | some player_entity => [ServerEffect.despawn player_entity]
        | none => []
      (mremove lobby client_id, nextE,
        despawns
          ++ [ServerEffect.broadcast ServerChannel.ServerMessages
                (ServerMessages.PlayerRemove client_id)])

/-- The reliable-ordered messages an effect trace delivers to connection
`cid` on channel `ch`, in order (direct sends to `cid` and broadcasts). -/
def messagesTo (cid : ClientId) (ch : ServerChannel) :
    List ServerEffect → List ServerMessages
  | [] => []
  | e :: rest =>
      (match e with
       | .sendTo c c2 m => if c = cid then (if c2 = ch then [m] else []) else []
       | .broadcast c2 m => if c2 = ch then [m] else []
       | _ => []) ++ messagesTo cid ch rest

/-- `Vec3` index-1 assignment, `v[1] = c` (the `f32` y / height
component). -/
def V3.setY (v : V3) (c : ℚ) : V3 :=
  { v with y := c }

/-- One `ClientChannel::Command` message from `client_id`
(`src/bin/server.rs:251-286`).  `normOZ` stands for `f32`
`Vec3::normalize_or_zero` and `isNorm` for `Vec3::is_normalized` (the
check inside `spawn_fireball`, `src/bot/mod.rs:111-113`); both are passed
as parameters because exact square roots are not available on the
rational scalars of this embedding.  Returns the new entity allocator
and the effect trace. -/
def processCommand (normOZ : V3 → V3) (isNorm : V3 → Bool)
    (lobby : List (ClientId × ServerEntity))
    (players : List (ServerEntity × SPlayer)) (nextE : ServerEntity)
    (client_id : ClientId) (cmd : PlayerCommand) :
    ServerEntity × List ServerEffect :=
  match cmd with
  | .BasicAttack cast_at =>
      match mlookup lobby client_id with
      | none => (nextE, [])
      | some player_entity =>
          match mlookup players player_entity with
          | none => (nextE, [])
          | some sp =>
              -- cast_at[1] = player_transform.translation[1];
              let cast_at2 := cast_at.setY sp.transform.translation.y
              -- (cast_at - translation).normalize_or_zero()
              let direction := normOZ (cast_at2 - sp.transform.translation)
              -- translation + direction * 0.7, then [1] = 1.0
              let translation :=
                (sp.transform.translation + (7 / 10 : ℚ) • direction).setY 1
              -- spawn_fireball: a non-normalized direction is replaced by X
              let dir2 := if isNorm direction then direction else V3.unitX
              let fireball_entity := nextE
              (nextE + 1,
                [ServerEffect.spawnProjectile fireball_entity translation
                    ((10 : ℚ) • dir2),
                 ServerEffect.broadcast ServerChannel.ServerMessages
                   (ServerMessages.SpawnProjectile fireball_entity translation)])

/-- One `ClientChannel::Input` message from `client_id`
(`src/bin/server.rs:287-316`): the lobby lookup guards every arm. -/
def processInput (lobby : List (ClientId × ServerEntity))
    (players : List (ServerEntity × SPlayer)) (client_id : ClientId)
    (inp : ClientInput) : List ServerEffect :=
  match mlookup lobby client_id with
  | none => []
  | some player_entity =>
      match inp with
      | .Movement input => [ServerEffect.setInput player_entity input]
      | .Rotation rotation =>
          match mlookup players player_entity with
          | some sp =>
              [ServerEffect.setTransform player_entity
                { sp.transform with rotation := rotation }]
          | none => []
      | .Position position =>
          match mlookup players player_entity with
          | some sp =>
              [ServerEffect.setTransform player_entity
                { sp.transform with translation := position }]
          | none => []
      | .Interact => []

/-- The per-client message-ingestion part of `server_update_system`
(`src/bin/server.rs:250-317`): drain the command queue, then the input
queue, for one `client_id`. -/
def processClientTick (normOZ : V3 → V3) (isNorm : V3 → Bool)
    (lobby : List (ClientId × ServerEntity))
    (players : List (ServerEntity × SPlayer)) (nextE : ServerEntity)
    (client_id : ClientId) (cmds : List PlayerCommand)
    (inputs : List ClientInput) : ServerEntity × List ServerEffect :=
  let cstep := cmds.foldl
    (fun acc cmd =>
      let r := processCommand normOZ isNorm lobby players acc.1 client_id cmd
      (r.1, acc.2 ++ r.2))
    (nextE, ([] : List ServerEffect))
  (cstep.1,
    cstep.2 ++ (inputs.map (processInput lobby players client_id)).flatten)

/-!
## Snapshot broadcast (`server_network_sync`, `src/bin/server.rs:334-357`)
-/

/-- One iteration of the query loop:
`networked_entities.entities.push(entity)` and the parallel pushes of
translation and rotation. -/
def pushEntity (ne : NetworkedEntities) (p : ServerEntity × Transform) :
    NetworkedEntities :=
  { entities := ne.entities ++ [p.1]
    translations := ne.translations ++ [p.2.translation]
    rotations := ne.rotations ++ [p.2.rotation] }

/-- The batch built from the
`Query<(Entity, &Transform), Or<(With<Player>, With<Projectile>)>>`
rows. -/
def buildNetworkedEntities (query : List (ServerEntity × Transform)) :
    NetworkedEntities :=
  query.foldl pushEntity NetworkedEntities.empty

/-- `server_network_sync` (`src/bin/server.rs:334-357`): when the fixed
`NetworkSyncTimer` reports `just_finished`, serialize every player and
projectile into one batch and broadcast it on the unreliable
`ServerChannel::NetworkedEntities` — unless the batch is empty, in which
case nothing is sent. -/
def server_network_sync (justFinished : Bool)
    (query : List (ServerEntity × Transform)) : List ServerEffect :=
  if !justFinished then []
  else
    let networked_entities := buildNetworkedEntities query
    if networked_entities.entities.isEmpty then []
    else [ServerEffect.broadcastSnap ServerChannel.NetworkedEntities
            networked_entities]

/-!
## Spec-side formulas (for the refinement claim C5)

These two definitions follow the wording of the claim/spec scenario —
"direction normalized toward the cast point (ignoring vertical offset)
and origin offset 0.7 units along that direction at height 1.0" — and
are proved to coincide with what `processCommand` emits.
-/

/-- The claim's direction: the normalization of
`cast_at - player position` after `cast_at`'s vertical component is
replaced by the player's vertical coordinate. -/
def specCastDirection (normOZ : V3 → V3) (playerPos cast_at : V3) : V3 :=
  normOZ ((cast_at.setY playerPos.y) - playerPos)

/-- The claim's origin: the player position offset 0.7 units along the
cast direction, with the height component then set to 1.0. -/
def specCastOrigin (normOZ : V3 → V3) (playerPos cast_at : V3) : V3 :=
  (playerPos + (7 / 10 : ℚ) • specCastDirection normOZ playerPos cast_at).setY 1

/-!
## Concrete states and inputs used by the witnesses below
-/

/-- Two consecutive frames 0.01 s apart, both with the client connected
and the W key held: the run refuting the 20 Hz rate-limit claim for
movement input. -/
def c3run : List Frame :=
  [{ time := 0, keyboard := ⟨false, false, true, false, false⟩,
     connected := true },
   { time := 1 / 100, keyboard := ⟨false, false, true, false, false⟩,
     connected := true }]

/-- Concrete client state for the C1 witness: client 7 controls local
entity 1 (mapped from server entity 100); server entity 200 maps to the
remote entity 2. -/
def c1state : ClientState :=
  { clientId := 7
    lobby := [(7, ⟨100, 1⟩)]
    mapping := [(100, 1), (200, 2)]
    world := [(1, Transform.fromXyz 0 2 0), (2, Transform.fromXyz 5 0 5)]
    nextEntity := 3 }

/-- A snapshot batch that includes the controlled entity's own server
identity (100) as well as a remote one (200). -/
def c1batch : NetworkedEntities :=
  { entities := [100, 200]
    translations := [⟨9, 9, 9⟩, ⟨8, 8, 8⟩]
    rotations := [Quat.identity, Quat.identity] }

/-- Concrete client state for the C2 counterexample: server entity 100 is
already registered (to local entity 1, owned by player 3). -/
def c2state : ClientState :=
  { clientId := 7
    lobby := [(3, ⟨100, 1⟩)]
    mapping := [(100, 1)]
    world := [(1, Transform.fromXyz 5 0 5)]
    nextEntity := 2 }

/-- Concrete client state for the C6 witness. -/
def c6state : ClientState :=
  { clientId := 4
    lobby := [(4, ⟨50, 1⟩)]
    mapping := [(50, 1)]
    world := [(1, Transform.fromXyz 0 2 0)]
    nextEntity := 2 }

/-- A snapshot batch whose server id 999 has no mapping entry. -/
def c6batch : NetworkedEntities :=
  { entities := [999]
    translations := [⟨1, 1, 1⟩]
    rotations := [Quat.identity] }

/-!
## Helper lemmas about the map model
-/

theorem mlookup_minsert {α : Type} (m : List (Nat × α)) (k : Nat) (v : α)
    (j : Nat) :
    mlookup (minsert m k v) j = if k = j then some v else mlookup m j := by
  induction m with
  | nil => simp [minsert, mlookup]
  | cons hd tl ih =>
      obtain ⟨k2, v2⟩ := hd
      by_cases h : k2 = k
      · subst h
        by_cases hj : k2 = j <;> simp [minsert, mlookup, hj]
      · by_cases hj : k2 = j
        · subst hj
          have hk : ¬ k = k2 := fun hh => h hh.symm
          simp [minsert, mlookup, h, hk]
        · simp [minsert, mlookup, h, hj, ih]

theorem mkeys_minsert_of_mem {α : Type} (m : List (Nat × α)) (k : Nat) (v : α)
    (h : (mlookup m k).isSome) : mkeys (minsert m k v) = mkeys m := by
  induction m with
  | nil => simp [mlookup] at h
  | cons hd tl ih =>
      obtain ⟨k2, v2⟩ := hd
      by_cases hk : k2 = k
      · subst hk
        simp [minsert, mkeys]
      · have h2 : (mlookup tl k).isSome := by
          simpa [mlookup, hk] using h
        simp [minsert, mkeys, hk] at ih ⊢
        exact ih h2

theorem mlookup_mremove_self {α : Type} (m : List (Nat × α)) (k : Nat) :
    mlookup (mremove m k) k = none := by
  induction m with
  | nil => simp [mremove, mlookup]
  | cons hd tl ih =>
      obtain ⟨k2, v2⟩ := hd
      by_cases hk : k2 = k <;> simp [mremove, mlookup, hk, ih]

theorem mremove_mremove {α : Type} (m : List (Nat × α)) (k : Nat) :
    mremove (mremove m k) k = mremove m k := by
  induction m with
  | nil => simp [mremove]
  | cons hd tl ih =>
      obtain ⟨k2, v2⟩ := hd
      by_cases hk : k2 = k <;> simp [mremove, hk, ih]

theorem mremove_of_absent {α : Type} (m : List (Nat × α)) (k : Nat)
    (h : mlookup m k = none) : mremove m k = m := by
  induction m with
  | nil => simp [mremove]
  | cons hd tl ih =>
      obtain ⟨k2, v2⟩ := hd
      by_cases hk : k2 = k
      · simp [mlookup, hk] at h
      · have h2 : mlookup tl k = none := by simpa [mlookup, hk] using h
        simp [mremove, hk, ih h2]

/-!
## Helper lemmas about snapshot application
-/

theorem snapshotWrite_lookup_ne (world : List (ClientEntity × Transform))
    (e : ClientEntity) (t : V3) (r : Quat) (j : ClientEntity) (h : j ≠ e) :
    mlookup (snapshotWrite world e t r) j = mlookup world j := by
  unfold snapshotWrite
  by_cases halive : (mlookup world e).isSome
  · have hej : e ≠ j := fun hh => h hh.symm
    simp [halive, mlookup_minsert, hej]
  · simp [halive]

theorem mkeys_snapshotWrite (world : List (ClientEntity × Transform))
    (e : ClientEntity) (t : V3) (r : Quat) :
    mkeys (snapshotWrite world e t r) = mkeys world := by
  unfold snapshotWrite
  by_cases halive : (mlookup world e).isSome
  · simp [halive, mkeys_minsert_of_mem world e _ halive]
  · simp [halive]

/-- A single snapshot entry never moves the controlled avatar: whenever
the client lobby resolves the local client id, the resolved
`client_entity` keeps its transform. -/
theorem applySnapshotEntry_preserves_controlled (cid : ClientId)
    (lobby : List (ClientId × PlayerInfo))
    (mapping : List (ServerEntity × ClientEntity))
    (world : List (ClientEntity × Transform)) (entry : ServerEntity × V3 × Quat)
    (info : PlayerInfo) (h : mlookup lobby cid = some info) :
    mlookup (applySnapshotEntry cid lobby mapping world entry)
        info.client_entity
      = mlookup world info.client_entity := by
  unfold applySnapshotEntry
  cases hmap : mlookup mapping entry.1 with
  | none => rfl
  | some e =>
      rw [h]
      by_cases hctl : info.client_entity = e
      · simp [hctl]
      · simp [hctl, snapshotWrite_lookup_ne _ _ _ _ _ hctl]

/-- A single snapshot entry changes the transform of `j` only if the
mapping resolves the entry's server id to `j` and `j` is not the
controlled avatar. -/
theorem applySnapshotEntry_changed (cid : ClientId)
    (lobby : List (ClientId × PlayerInfo))
    (mapping : List (ServerEntity × ClientEntity))
    (world : List (ClientEntity × Transform)) (entry : ServerEntity × V3 × Quat)
    (j : ClientEntity)
    (h : mlookup (applySnapshotEntry cid lobby mapping world entry) j
          ≠ mlookup world j) :
    mlookup mapping entry.1 = some j
      ∧ ∀ info, mlookup lobby cid = some info → info.client_entity ≠ j := by
  cases hmap : mlookup mapping entry.1 with
  | none =>
      exfalso
      apply h
      simp [applySnapshotEntry, hmap]
  | some e =>
      by_cases hje : j = e
      · subst hje
        refine ⟨rfl, ?_⟩
        intro info hinfo hctl
        apply h
        simp [applySnapshotEntry, hmap, hinfo, hctl]
      · exfalso
        apply h
        cases hlob : mlookup lobby cid with
        | none =>
            simp only [applySnapshotEntry, hmap, hlob]
            exact snapshotWrite_lookup_ne _ _ _ _ _ hje
        | some info =>
            by_cases hctl : info.client_entity = e
            · simp [applySnapshotEntry, hmap, hlob, hctl]
            · simp only [applySnapshotEntry, hmap, hlob, if_neg hctl]
              exact snapshotWrite_lookup_ne _ _ _ _ _ hje

theorem mkeys_applySnapshotEntry (cid : ClientId)
    (lobby : List (ClientId × PlayerInfo))
    (mapping : List (ServerEntity × ClientEntity))
    (world : List (ClientEntity × Transform))
    (entry : ServerEntity × V3 × Quat) :
    mkeys (applySnapshotEntry cid lobby mapping world entry) = mkeys world := by
  unfold applySnapshotEntry
  cases hmap : mlookup mapping entry.1 with
  | none => rfl
  | some e =>
      cases hlob : mlookup lobby cid with
      | none => simp [mkeys_snapshotWrite]
      | some info =>
          by_cases hctl : info.client_entity = e <;>
            simp [hctl, mkeys_snapshotWrite]

/-- Folding snapshot entries preserves the lookup of the controlled
avatar. -/
theorem foldl_preserves_controlled (cid : ClientId)
    (lobby : List (ClientId × PlayerInfo))
    (mapping : List (ServerEntity × ClientEntity)) (info : PlayerInfo)
    (h : mlookup lobby cid = some info) :
    ∀ (entries : List (ServerEntity × V3 × Quat))
      (world : List (ClientEntity × Transform)),
      mlookup (entries.foldl (applySnapshotEntry cid lobby mapping) world)
          info.client_entity
        = mlookup world info.client_entity := by
  intro entries
  induction entries with
  | nil => intro world; rfl
  | cons hd tl ih =>
      intro world
      calc mlookup ((hd :: tl).foldl (applySnapshotEntry cid lobby mapping) world)
              info.client_entity
          = mlookup (applySnapshotEntry cid lobby mapping world hd)
              info.client_entity := ih _
        _ = mlookup world info.client_entity :=
              applySnapshotEntry_preserves_controlled cid lobby mapping world hd
                info h

/-- Folding snapshot entries changes the transform of `j` only if some
entry resolves to `j` and `j` is not the controlled avatar. -/
theorem foldl_changed (cid : ClientId) (lobby : List (ClientId × PlayerInfo))
    (mapping : List (ServerEntity × ClientEntity)) (j : ClientEntity) :
    ∀ (entries : List (ServerEntity × V3 × Quat))
      (world : List (ClientEntity × Transform)),
      mlookup (entries.foldl (applySnapshotEntry cid lobby mapping) world) j
          ≠ mlookup world j →
      (∃ p ∈ entries, mlookup mapping p.1 = some j)
        ∧ ∀ info, mlookup lobby cid = some info → info.client_entity ≠ j := by
  intro entries
  induction entries with
  | nil => intro world h; exact absurd rfl h
  | cons hd tl ih =>
      intro world h
      by_cases h1 : mlookup (applySnapshotEntry cid lobby mapping world hd) j
          = mlookup world j
      · have h2 : mlookup (tl.foldl (applySnapshotEntry cid lobby mapping)
              (applySnapshotEntry cid lobby mapping world hd)) j
            ≠ mlookup (applySnapshotEntry cid lobby mapping world hd) j := by
          intro hc
          exact h (by simpa [List.foldl] using hc.trans h1)
        obtain ⟨⟨p, hp, hpj⟩, hctl⟩ := ih _ h2
        exact ⟨⟨p, List.mem_cons_of_mem _ hp, hpj⟩, hctl⟩
      · obtain ⟨hmap, hctl⟩ :=
          applySnapshotEntry_changed cid lobby mapping world hd j h1
        exact ⟨⟨hd, List.mem_cons_self _ _, hmap⟩, hctl⟩

theorem mkeys_foldl (cid : ClientId) (lobby : List (ClientId × PlayerInfo))
    (mapping : List (ServerEntity × ClientEntity)) :
    ∀ (entries : List (ServerEntity × V3 × Quat))
      (world : List (ClientEntity × Transform)),
      mkeys (entries.foldl (applySnapshotEntry cid lobby mapping) world)
        = mkeys world := by
  intro entries
  induction entries with
  | nil => intro world; rfl
  | cons hd tl ih =>
      intro world
      calc mkeys ((hd :: tl).foldl (applySnapshotEntry cid lobby mapping) world)
          = mkeys (applySnapshotEntry cid lobby mapping world hd) := ih _
        _ = mkeys world := mkeys_applySnapshotEntry cid lobby mapping world hd

/-!
## Claims
-/

/-- C1: for every incoming snapshot batch processed by
`client_sync_players`, the locally-controlled avatar's transform is never
mutated — whatever the batch contains, including the controlled entity's
own server identity — and only mapped entities other than the controlled
avatar have their transforms overwritten. -/
theorem snapshot_never_mutates_controlled_avatar (s : ClientState)
    (ne : NetworkedEntities) (info : PlayerInfo)
    (h : mlookup s.lobby s.clientId = some info) :
    mlookup (applyNetworkedEntities s ne).world info.client_entity
        = mlookup s.world info.client_entity
    ∧ ∀ j, mlookup (applyNetworkedEntities s ne).world j ≠ mlookup s.world j →
        (∃ p ∈ ne.entries, mlookup s.mapping p.1 = some j)
          ∧ j ≠ info.client_entity := by
  constructor
  · exact foldl_preserves_controlled s.clientId s.lobby s.mapping info h
      ne.entries s.world
  · intro j hj
    obtain ⟨hex, hctl⟩ :=
      foldl_changed s.clientId s.lobby s.mapping j ne.entries s.world hj
    exact ⟨hex, fun hji => hctl info h hji.symm⟩

/-- Witness for C1 at a concrete state and batch. -/
theorem snapshot_never_mutates_controlled_avatar_witness :
    mlookup c1state.lobby c1state.clientId = some ⟨100, 1⟩
    ∧ (mlookup (applyNetworkedEntities c1state c1batch).world 1
          = mlookup c1state.world 1
        ∧ ∀ j, mlookup (applyNetworkedEntities c1state c1batch).world j
              ≠ mlookup c1state.world j →
            (∃ p ∈ c1batch.entries, mlookup c1state.mapping p.1 = some j)
              ∧ j ≠ 1) :=
  ⟨rfl, snapshot_never_mutates_controlled_avatar c1state c1batch ⟨100, 1⟩ rfl⟩

/-- C2 counterexample: the claim says that registering a server entity
identity already present in the mapping fails by signalling
`DuplicateRegistration`.  In the code the `PlayerCreate` handler performs
a plain `HashMap::insert` (`src/bin/client.rs:272,303`): at a state whose
mapping already binds server entity 100 to local entity 1, handling a
`PlayerCreate` for server entity 100 completes normally and silently
overwrites the binding with the freshly spawned local entity 2. -/
theorem duplicate_registration_overwrites :
    mlookup c2state.mapping 100 = some 1
    ∧ (clientHandleMessage c2state
        (ServerMessages.PlayerCreate 9 100 ⟨0, 0, 0⟩)).mapping = [(100, 2)]
    ∧ mlookup (clientHandleMessage c2state
        (ServerMessages.PlayerCreate 9 100 ⟨0, 0, 0⟩)).mapping 100 ≠ some 1 := by
  refine ⟨rfl, ?_, by decide⟩
  rfl

/-- C2 (amended): registration never fails; the `PlayerCreate` handler
unconditionally inserts into the identity mapping, overwriting any prior
binding for the server id (last write wins), and always allocates a fresh
local handle. -/
theorem registration_inserts_unconditionally (s : ClientState) (id : ClientId)
    (entity : ServerEntity) (translation : V3) :
    mlookup (clientHandleMessage s
        (ServerMessages.PlayerCreate id entity translation)).mapping entity
      = some s.nextEntity
    ∧ (clientHandleMessage s
        (ServerMessages.PlayerCreate id entity translation)).nextEntity
      = s.nextEntity + 1 := by
  by_cases h : s.clientId = id <;> simp [clientHandleMessage, h, mlookup_minsert]

/-- C6: a snapshot batch never creates (nor destroys) a local entity, an
entry whose server id has no mapping entry is a silent no-op, and a
`DespawnProjectile` for an unmapped server id is likewise a silent no-op. -/
theorem unknown_identity_is_silent_noop (s : ClientState)
    (ne : NetworkedEntities) :
    mkeys (applyNetworkedEntities s ne).world = mkeys s.world
    ∧ (∀ sid t r world, mlookup s.mapping sid = none →
        applySnapshotEntry s.clientId s.lobby s.mapping world (sid, t, r)
          = world)
    ∧ (∀ entity, mlookup s.mapping entity = none →
        clientHandleMessage s (ServerMessages.DespawnProjectile entity) = s) := by
  refine ⟨mkeys_foldl _ _ _ ne.entries s.world, ?_, ?_⟩
  · intro sid t r world hnone
    simp [applySnapshotEntry, hnone]
  · intro entity hnone
    simp [clientHandleMessage, unregister, hnone]

/-- Witness for C6: the unmapped-id hypotheses hold at server id 999 and
the conclusions follow by applying the claim theorem there. -/
theorem unknown_identity_is_silent_noop_witness :
    mlookup c6state.mapping 999 = none
    ∧ mkeys (applyNetworkedEntities c6state c6batch).world = mkeys c6state.world
    ∧ applySnapshotEntry c6state.clientId c6state.lobby c6state.mapping
        c6state.world (999, ⟨1, 1, 1⟩, Quat.identity) = c6state.world
    ∧ clientHandleMessage c6state (ServerMessages.DespawnProjectile 999)
        = c6state :=
  ⟨by decide,
   (unknown_identity_is_silent_noop c6state c6batch).1,
   (unknown_identity_is_silent_noop c6state c6batch).2.1 999 ⟨1, 1, 1⟩
     Quat.identity c6state.world (by decide),
   (unknown_identity_is_silent_noop c6state c6batch).2.2 999 (by decide)⟩

/-- C7: `unregister` (the map-removal step of the `PlayerRemove` and
`DespawnProjectile` handlers) is idempotent: the second removal of the
same key is a no-op returning nothing, and removing an absent key is a
no-op returning nothing rather than an error. -/
theorem unregister_idempotent (m : List (ServerEntity × ClientEntity))
    (k : ServerEntity) :
    unregister (unregister m k).2 k = (none, (unregister m k).2)
    ∧ (mlookup m k = none → unregister m k = (none, m)) := by
  constructor
  · unfold unregister
    simp [mlookup_mremove_self, mremove_mremove]
  · intro h
    unfold unregister
    simp [h, mremove_of_absent m k h]

/-- Witness for C7 at a concrete map and an absent key. -/
theorem unregister_idempotent_witness :
    mlookup ([(100, 1)] : List (ServerEntity × ClientEntity)) 200 = none
    ∧ unregister ([(100, 1)] : List (ServerEntity × ClientEntity)) 200
        = (none, [(100, 1)]) :=
  ⟨by decide, (unregister_idempotent [(100, 1)] 200).2 (by decide)⟩

/-- C9: applying a snapshot entry to a mapped, live, non-controlled local
entity replaces the entire `Transform`: translation and rotation come
from the snapshot and the scale is reset to the default `(1, 1, 1)`,
whatever the entity's previous scale was. -/
theorem snapshot_entry_resets_scale (cid : ClientId)
    (lobby : List (ClientId × PlayerInfo))
    (mapping : List (ServerEntity × ClientEntity))
    (world : List (ClientEntity × Transform)) (sid : ServerEntity)
    (e : ClientEntity) (t : V3) (r : Quat)
    (hmap : mlookup mapping sid = some e)
    (hctl : ∀ info, mlookup lobby cid = some info → info.client_entity ≠ e)
    (halive : (mlookup world e).isSome) :
    mlookup (applySnapshotEntry cid lobby mapping world (sid, t, r)) e
      = some { translation := t, rotation := r, scale := V3.one } := by
  cases hlob : mlookup lobby cid with
  | none =>
      simp only [applySnapshotEntry, hmap, hlob]
      unfold snapshotWrite
      simp [halive, mlookup_minsert]
  | some info =>
      have hne : info.client_entity ≠ e := hctl info hlob
      simp only [applySnapshotEntry, hmap, hlob, if_neg hne]
      unfold snapshotWrite
      simp [halive, mlookup_minsert]

/-- Witness for C9: entity 2 had scale `(3, 3, 3)`; after the entry it
carries the snapshot translation/rotation and scale `(1, 1, 1)`. -/
theorem snapshot_entry_resets_scale_witness :
    mlookup ([(200, 2)] : List (ServerEntity × ClientEntity)) 200 = some 2
    ∧ (∀ info : PlayerInfo,
        mlookup [(7, (⟨100, 1⟩ : PlayerInfo))] 7 = some info →
          info.client_entity ≠ 2)
    ∧ (mlookup
        [(2, (⟨⟨5, 5, 5⟩, Quat.identity, ⟨3, 3, 3⟩⟩ : Transform))] 2).isSome
    ∧ mlookup (applySnapshotEntry 7 [(7, ⟨100, 1⟩)] [(200, 2)]
        [(2, ⟨⟨5, 5, 5⟩, Quat.identity, ⟨3, 3, 3⟩⟩)]
        (200, ⟨9, 9, 9⟩, Quat.identity)) 2
      = some { translation := ⟨9, 9, 9⟩, rotation := Quat.identity,
               scale := V3.one } :=
  ⟨by decide,
   fun info hinfo => by
     have h2 : info = ⟨100, 1⟩ := by
       have := hinfo.symm
       simpa [mlookup] using this
     rw [h2]
     decide,
   by decide,
   snapshot_entry_resets_scale 7 [(7, ⟨100, 1⟩)] [(200, 2)]
     [(2, ⟨⟨5, 5, 5⟩, Quat.identity, ⟨3, 3, 3⟩⟩)] 200 2 ⟨9, 9, 9⟩ Quat.identity
     (by decide)
     (fun info hinfo => by
       have h2 : info = ⟨100, 1⟩ := by
         have := hinfo.symm
         simpa [mlookup] using this
       rw [h2]
       decide)
     (by decide)⟩

/-- C3 counterexample: the claim says movement input is rate-limited to
20 Hz (at most one message per 0.05 s window).  `player_input`
(`src/player/mod.rs:277-295`) reads no clock and sends one
`ClientInput::Movement` on every invocation while connected: two frames
0.01 s apart both send, two messages inside one 0.05 s window. -/
theorem movement_not_rate_limited :
    movementSends c3run
      = [(0, ClientInput.Movement (inputOfKeyboard ⟨false, false, true, false, false⟩)),
         (1 / 100, ClientInput.Movement (inputOfKeyboard ⟨false, false, true, false, false⟩))]
    ∧ ((1 : ℚ) / 100 - 0 < 1 / 20) := by
  constructor
  · rfl
  · norm_num

/-- C3 (amended): the connected client sends exactly one movement input
message per frame — every invocation of `player_input` with the client
connected sends one `ClientInput::Movement`, with no rate limiting. -/
theorem movement_sent_every_connected_frame (frames : List Frame) :
    movementSends frames
      = (frames.filter (fun f => f.connected)).map
          (fun f => (f.time, ClientInput.Movement (inputOfKeyboard f.keyboard))) := by
  induction frames with
  | nil => rfl
  | cons f rest ih =>
      cases hc : f.connected <;> simp [movementSends, player_input, hc, ih]

theorem messagesTo_append (cid : ClientId) (ch : ServerChannel)
    (l1 l2 : List ServerEffect) :
    messagesTo cid ch (l1 ++ l2) = messagesTo cid ch l1 ++ messagesTo cid ch l2 := by
  induction l1 with
  | nil => rfl
  | cons e rest ih => simp [messagesTo, ih, List.append_assoc]

theorem messagesTo_catchup (cid : ClientId)
    (players : List (ServerEntity × SPlayer)) :
    messagesTo cid ServerChannel.ServerMessages
        (players.map (fun p =>
          ServerEffect.sendTo cid ServerChannel.ServerMessages
            (ServerMessages.PlayerCreate p.2.id p.1 p.2.transform.translation)))
      = players.map (fun p =>
          ServerMessages.PlayerCreate p.2.id p.1 p.2.transform.translation) := by
  induction players with
  | nil => rfl
  | cons p rest ih => simp [messagesTo, ih]

/-- C4: on every `ClientConnected` event the server first sends the new
connection one `PlayerCreate` per already-existing player (catch-up, to
the new connection only), and only then spawns the joining player's
entity and broadcasts that player's `PlayerCreate` to everyone including
the new connection; on the new connection's reliable channel every
pre-existing player's create message precedes the new player's own. -/
theorem connect_catchup_precedes_own_create
    (lobby : List (ClientId × ServerEntity))
    (players : List (ServerEntity × SPlayer)) (nextE : ServerEntity)
    (cid : ClientId) :
    (handleServerEvent lobby players nextE (ServerEvent.ClientConnected cid)).2.2
      = players.map (fun p =>
          ServerEffect.sendTo cid ServerChannel.ServerMessages
            (ServerMessages.PlayerCreate p.2.id p.1 p.2.transform.translation))
        ++ ServerEffect.spawnPlayer nextE cid joinTransform
        :: [ServerEffect.broadcast ServerChannel.ServerMessages
              (ServerMessages.PlayerCreate cid nextE joinTransform.translation)]
    ∧ messagesTo cid ServerChannel.ServerMessages
        (handleServerEvent lobby players nextE
          (ServerEvent.ClientConnected cid)).2.2
      = players.map (fun p =>
          ServerMessages.PlayerCreate p.2.id p.1 p.2.transform.translation)
        ++ [ServerMessages.PlayerCreate cid nextE joinTransform.translation] := by
  constructor
  · rfl
  · rw [show (handleServerEvent lobby players nextE
          (ServerEvent.ClientConnected cid)).2.2
        = players.map (fun p =>
            ServerEffect.sendTo cid ServerChannel.ServerMessages
              (ServerMessages.PlayerCreate p.2.id p.1 p.2.transform.translation))
          ++ ServerEffect.spawnPlayer nextE cid joinTransform
          :: [ServerEffect.broadcast ServerChannel.ServerMessages
                (ServerMessages.PlayerCreate cid nextE joinTransform.translation)]
        from rfl]
    rw [messagesTo_append, messagesTo_catchup]
    simp [messagesTo]

/-- C5: a `BasicAttack{cast_at}` from a connected player present in the
lobby spawns exactly one projectile and broadcasts exactly one
`SpawnProjectile`; the projectile's direction is the normalization of
`cast_at - player position` after `cast_at`'s vertical component is
replaced by the player's (its velocity is 10 times that direction), and
its origin is the player position offset 0.7 units along that direction
with the height component then set to 1.0.  The hypothesis `h3` confines
the statement to the case the claim's wording presupposes: the
normalization produced a unit vector (`cast_at` not vertically aligned
with the player). -/
theorem basic_attack_spawns_one_projectile (normOZ : V3 → V3)
    (isNorm : V3 → Bool) (lobby : List (ClientId × ServerEntity))
    (players : List (ServerEntity × SPlayer)) (nextE : ServerEntity)
    (client_id : ClientId) (cast_at : V3) (pe : ServerEntity) (sp : SPlayer)
    (h1 : mlookup lobby client_id = some pe)
    (h2 : mlookup players pe = some sp)
    (h3 : isNorm (specCastDirection normOZ sp.transform.translation cast_at)
            = true) :
    processCommand normOZ isNorm lobby players nextE client_id
        (PlayerCommand.BasicAttack cast_at)
      = (nextE + 1,
         [ServerEffect.spawnProjectile nextE
            (specCastOrigin normOZ sp.transform.translation cast_at)
            ((10 : ℚ) • specCastDirection normOZ sp.transform.translation cast_at),
          ServerEffect.broadcast ServerChannel.ServerMessages
            (ServerMessages.SpawnProjectile nextE
              (specCastOrigin normOZ sp.transform.translation cast_at))]) := by
  have h3v : isNorm (normOZ ((cast_at.setY sp.transform.translation.y)
      - sp.transform.translation)) = true := h3
  simp [processCommand, h1, h2, h3v, specCastOrigin, specCastDirection]

/-- Witness for C5: player 1 (avatar entity 10) at the origin casts at
`(5, 0, 5)`; the normalization parameters are instantiated with the
identity function and the constantly-true check. -/
theorem basic_attack_spawns_one_projectile_witness :
    mlookup [((1 : ClientId), (10 : ServerEntity))] 1 = some 10
    ∧ mlookup [((10 : ServerEntity),
        ({ id := 1, transform := Transform.fromXyz 0 0 0 } : SPlayer))] 10
      = some { id := 1, transform := Transform.fromXyz 0 0 0 }
    ∧ (fun _ : V3 => true)
        (specCastDirection (fun v : V3 => v)
          (Transform.fromXyz 0 0 0).translation ⟨5, 0, 5⟩) = true
    ∧ processCommand (fun v : V3 => v) (fun _ : V3 => true) [(1, 10)]
        [(10, { id := 1, transform := Transform.fromXyz 0 0 0 })] 77 1
        (PlayerCommand.BasicAttack ⟨5, 0, 5⟩)
      = (77 + 1,
         [ServerEffect.spawnProjectile 77
            (specCastOrigin (fun v : V3 => v)
              (Transform.fromXyz 0 0 0).translation ⟨5, 0, 5⟩)
            ((10 : ℚ) • specCastDirection (fun v : V3 => v)
              (Transform.fromXyz 0 0 0).translation ⟨5, 0, 5⟩),
          ServerEffect.broadcast ServerChannel.ServerMessages
            (ServerMessages.SpawnProjectile 77
              (specCastOrigin (fun v : V3 => v)
                (Transform.fromXyz 0 0 0).translation ⟨5, 0, 5⟩))]) :=
  ⟨rfl, rfl, rfl,
   basic_attack_spawns_one_projectile (fun v => v) (fun _ => true) [(1, 10)]
     [(10, { id := 1, transform := Transform.fromXyz 0 0 0 })] 77 1 ⟨5, 0, 5⟩
     10 { id := 1, transform := Transform.fromXyz 0 0 0 } rfl rfl rfl⟩

theorem foldl_pushEntity (query : List (ServerEntity × Transform)) :
    ∀ acc : NetworkedEntities,
      query.foldl pushEntity acc
        = { entities := acc.entities ++ query.map Prod.fst
            translations := acc.translations
              ++ query.map (fun p => p.2.translation)
            rotations := acc.rotations ++ query.map (fun p => p.2.rotation) } := by
  induction query with
  | nil => intro acc; simp
  | cons p rest ih => intro acc; simp [pushEntity, ih, List.append_assoc]

theorem buildNetworkedEntities_spec (query : List (ServerEntity × Transform)) :
    buildNetworkedEntities query
      = { entities := query.map Prod.fst
          translations := query.map (fun p => p.2.translation)
          rotations := query.map (fun p => p.2.rotation) } := by
  simpa [buildNetworkedEntities, NetworkedEntities.empty]
    using foldl_pushEntity query NetworkedEntities.empty

/-- C8: on each firing of the fixed snapshot timer, `server_network_sync`
serializes every queried player/projectile into one batch (ids,
translations and rotations in query order) and broadcasts it on the
unreliable `NetworkedEntities` channel; an empty batch sends nothing. -/
theorem snapshot_broadcast_full_batch_or_nothing
    (query : List (ServerEntity × Transform)) :
    server_network_sync true query
      = if query.isEmpty then []
        else [ServerEffect.broadcastSnap ServerChannel.NetworkedEntities
                { entities := query.map Prod.fst
                  translations := query.map (fun p => p.2.translation)
                  rotations := query.map (fun p => p.2.rotation) }] := by
  cases query with
  | nil => rfl
  | cons p rest =>
      simp [server_network_sync, buildNetworkedEntities_spec]

/-- C10: every command or input message received from a client id with no
entry in the server lobby is silently discarded: the whole per-client
tick produces no effect and allocates no entity, for arbitrary queues of
commands and inputs. -/
theorem unknown_client_messages_ignored (normOZ : V3 → V3)
    (isNorm : V3 → Bool) (lobby : List (ClientId × ServerEntity))
    (players : List (ServerEntity × SPlayer)) (nextE : ServerEntity)
    (client_id : ClientId) (cmds : List PlayerCommand)
    (inputs : List ClientInput) (h : mlookup lobby client_id = none) :
    processClientTick normOZ isNorm lobby players nextE client_id cmds inputs
      = (nextE, []) := by
  have hcmd : ∀ (cmd : PlayerCommand) (n : ServerEntity),
      processCommand normOZ isNorm lobby players n client_id cmd = (n, []) := by
    intro cmd n
    cases cmd with
    | BasicAttack cast_at => simp [processCommand, h]
  have hfold : ∀ (cs : List PlayerCommand) (acc : ServerEntity × List ServerEffect),
      cs.foldl (fun acc cmd =>
        let r := processCommand normOZ isNorm lobby players acc.1 client_id cmd
        (r.1, acc.2 ++ r.2)) acc = acc := by
    intro cs
    induction cs with
    | nil => intro acc; rfl
    | cons c rest ih =>
        intro acc
        have hstep :
            (let r := processCommand normOZ isNorm lobby players acc.1 client_id c
             ((r.1, acc.2 ++ r.2) : ServerEntity × List ServerEffect)) = acc := by
          simp [hcmd]
        rw [List.foldl_cons, hstep]
        exact ih acc
  have hinp : ∀ inp : ClientInput,
      processInput lobby players client_id inp = [] := by
    intro inp
    cases inp <;> simp [processInput, h]
  unfold processClientTick
  rw [hfold]
  simp [hinp]

/-- Witness for C10: client 5 is absent from an empty lobby; one command
and four inputs all vanish. -/
theorem unknown_client_messages_ignored_witness :
    mlookup ([] : List (ClientId × ServerEntity)) 5 = none
    ∧ processClientTick (fun v : V3 => v) (fun _ : V3 => true) [] [] 3 5
        [PlayerCommand.BasicAttack ⟨1, 1, 1⟩]
        [ClientInput.Movement ⟨false, false, false, false, false⟩,
         ClientInput.Rotation Quat.identity,
         ClientInput.Position V3.zero,
         ClientInput.Interact]
      = (3, []) :=
  ⟨rfl,
   unknown_client_messages_ignored (fun v => v) (fun _ => true) [] [] 3 5
     [PlayerCommand.BasicAttack ⟨1, 1, 1⟩]
     [ClientInput.Movement ⟨false, false, false, false, false⟩,
      ClientInput.Rotation Quat.identity,
      ClientInput.Position V3.zero,
      ClientInput.Interact] rfl⟩

end FPS
